import Mathlib

/-!
Verification of the core logic of `pdf_viewer_gemini.py`: the Gemini worker
(terminal-signal and cancellation behaviour), the single-flight API dispatch
guard, the page-pairing / fit-width layout arithmetic, and the navigation and
zoom operations.  Every definition is a shallow embedding of the corresponding
Python function; floats are modelled as exact rationals, Python ints as `Int`
or `Nat` as appropriate.
-/

namespace PdfViewerGemini

/-! ## Constants (module-level constants of the source) -/

def MIN_ZOOM : ℚ := 1/10

def MAX_ZOOM : ℚ := 10

def ZOOM_INCREMENT : ℚ := 6/5

def TWO_PAGE_SPACING_BASE : ℚ := 10

def FIT_PADDING : ℤ := 15

/-! ## GeminiWorker

`GeminiWorker.run` performs one blocking Gemini call and reports through the
`finished` / `error` / `progress` signals.  The remote reply is modelled as a
record of the dynamically probed attributes (`text`, `prompt_feedback`,
`candidates`); a raising call is the other constructor of `ApiCall`.  The
interruption flag `_is_interrupted` is set asynchronously by
`request_interruption`; the worker reads it at the pre-call checkpoint, and
again after the call (both the post-return check and the check inside the
`except` handler happen after the call, modelled by one observation
`interruptedAfter`). -/

structure GeminiResponse where
  text : Option String
  prompt_feedback : Option String
  candidates : Option (List String)
deriving DecidableEq

inductive ApiCall where
  | ret (resp : GeminiResponse)
  | exn (msg : String)
deriving DecidableEq

inductive Signal where
  | progress (value : Nat)
  | finished (text : String)
  | error (msg : String)
deriving DecidableEq

structure RunResult where
  signals : List Signal
  callIssued : Bool
deriving DecidableEq

/-- Python truthiness of `response.prompt_feedback` (attribute present and
non-empty). -/
def pfTruthy (resp : GeminiResponse) : Bool :=
  match resp.prompt_feedback with
  | some fb => fb ≠ ""
  | none => false

/-- The `error_detail` computation of `GeminiWorker.run` (lines 123–131):
prompt feedback if present and truthy, else the empty-candidates message,
else the generic message. -/
def errorDetail (resp : GeminiResponse) : String :=
  if pfTruthy resp then "プロンプトフィードバック: " ++ resp.prompt_feedback.getD ""
  else if resp.candidates = some [] then "応答候補がありません"
  else "不明な応答形式"

/-- The validity test of line 121: `not hasattr(response, 'text') or not
response.text` (absent attribute, or empty string). -/
def invalidText (resp : GeminiResponse) : Bool :=
  match resp.text with
  | none => true
  | some t => t = ""

/-- Shallow embedding of `GeminiWorker.run` (lines 94–146).  Inputs: whether
`self.model` is set, the flag value observed at the pre-call checkpoint, the
flag value observed after the call (post-return check and `except`-handler
check), and the outcome of `generate_content`.  Output: the emitted signals in
order, and whether the remote call was issued. -/
def GeminiWorker.run (modelConfigured interruptedBefore interruptedAfter : Bool)
    (call : ApiCall) : RunResult :=
  if modelConfigured = false then
    ⟨[.error "Geminiモデルが設定されていません。"], false⟩
  else if interruptedBefore = true then
    ⟨[.error "APIコール開始前にキャンセルされました。"], false⟩
  else
    match call with
    | .exn e =>
      if interruptedAfter = false then
        ⟨[.progress 50, .error ("Gemini APIからの応答取得に失敗しました: " ++ e)], true⟩
      else
        ⟨[.progress 50], true⟩
    | .ret resp =>
      if interruptedAfter = true then
        ⟨[.progress 50, .error "APIコールがキャンセルされました。"], true⟩
      else if invalidText resp = true then
        ⟨[.progress 50, .error ("Gemini APIから無効な応答を受け取りました: " ++ errorDetail resp)], true⟩
      else
        ⟨[.progress 50, .progress 100, .finished (resp.text.getD "")], true⟩

/-- A signal is terminal when it is `finished` or `error`. -/
def Signal.isTerminal : Signal → Bool
  | .progress _ => false
  | .finished _ => true
  | .error _ => true

def terminalCount (r : RunResult) : Nat :=
  r.signals.countP (fun s => s.isTerminal)

/-! ## display_page layout arithmetic -/

structure DisplayDecision where
  indicesToLoad : List Nat
  isTwoPageView : Bool
deriving DecidableEq

/-- The page-selection step of `PDFViewer.display_page` (lines 1003–1009):
start from `[current_page]` and append `current_page + 1` exactly when
two-page mode is on, the current page is not page 0, and the next page
exists. -/
def displayIndices (twoPageMode : Bool) (currentPage numPages : Nat) : DisplayDecision :=
  if twoPageMode = true ∧ 0 < currentPage ∧ currentPage + 1 < numPages then
    ⟨[currentPage, currentPage + 1], true⟩
  else
    ⟨[currentPage], false⟩

/-- `total_unzoomed_width_with_spacing` (lines 1018–1023): sum of the loaded
pages' widths plus the base spacing when the view is two-page. -/
def totalUnzoomedWidthWithSpacing (pageWidths : List ℚ) (isTwoPageView : Bool) : ℚ :=
  pageWidths.sum + (if isTwoPageView = true then TWO_PAGE_SPACING_BASE else 0)

/-- The clamp of line 1043: `max(MIN_ZOOM, min(MAX_ZOOM, current_zoom))`. -/
def clampZoom (z : ℚ) : ℚ := max MIN_ZOOM (min MAX_ZOOM z)

/-- The fit-width branch of `display_page` (lines 1030–1034 plus the clamp of
line 1043): `available_width = max(1, viewport_width - FIT_PADDING)` (integer
arithmetic), then divide by the total unzoomed width when it is positive,
else `1.0`, then clamp. -/
def fitWidthZoom (viewportWidth : ℤ) (totalW : ℚ) : ℚ :=
  let availableWidth : ℚ := ((max 1 (viewportWidth - FIT_PADDING) : ℤ) : ℚ)
  clampZoom (if 0 < totalW then availableWidth / totalW else 1)

/-! ## Single-flight dispatch guard (`PDFViewer._call_gemini_api`) -/

/-- The fraction of viewer state that `_call_gemini_api` consults and mutates
for the single-flight discipline: whether `api_call_thread` exists and is
running, and `current_action_name`. -/
structure DispatcherState where
  apiThreadRunning : Bool
  currentActionName : Option String
deriving DecidableEq

inductive SubmitOutcome where
  | noDocument
  | notConfigured
  | busy (runningAction : String)
  | noText
  | started (actionName : String)
deriving DecidableEq

/-- Python `s or default` for the optional action name (line 1164): the
default when the name is `None` or empty. -/
def pyOrStr (s : Option String) (d : String) : String :=
  match s with
  | some v => if v = "" then d else v
  | none => d

/-- Shallow embedding of the guard sequence of `PDFViewer._call_gemini_api`
(lines 1150–1242): no document → notice; no model → notice; a running API
thread → busy notice naming `current_action_name or "別の操作"`, with no
mutation; empty extracted text → notice; otherwise a worker thread is started
and `current_action_name` is set. -/
def callGeminiApi (st : DispatcherState) (docOpen modelConfigured : Bool)
    (extractedText : String) (actionName : String) : DispatcherState × SubmitOutcome :=
  if docOpen = false then (st, .noDocument)
  else if modelConfigured = false then (st, .notConfigured)
  else if st.apiThreadRunning = true then
    (st, .busy (pyOrStr st.currentActionName "別の操作"))
  else if extractedText.trim = "" then (st, .noText)
  else (⟨true, some actionName⟩, .started actionName)

/-! ## Navigation, zoom, and mode toggling -/

/-- Shallow embedding of `PDFViewer.next_page` (lines 1361–1389), returning
the new `current_page`.  Uses `Nat` like the non-negative Python values; the
guard `current_page >= num_pages - 1` behaves identically under truncated
subtraction because for `numPages = 0` both sides make the guard true. -/
def nextPage (twoPageMode : Bool) (numPages currentPage : Nat) : Nat :=
  if numPages - 1 ≤ currentPage then currentPage
  else
    let delta : Nat :=
      if twoPageMode = true then
        if currentPage = 0 then 1
        else if currentPage + 2 < numPages then 2
        else 1
      else 1
    let potential := currentPage + delta
    if potential < numPages then potential else currentPage

/-- `PDFViewer.zoom_in` update of `zoom_factor` (line 1398). -/
def zoomIn (z : ℚ) : ℚ := min MAX_ZOOM (z * ZOOM_INCREMENT)

/-- `PDFViewer.zoom_out` update of `zoom_factor` (line 1406). -/
def zoomOut (z : ℚ) : ℚ := max MIN_ZOOM (z / ZOOM_INCREMENT)

/-- The value `zoom_factor` receives at construction (line 323), on opening a
document (lines 907/934) and on `_reset_viewer_state` (line 985): `1.0`. -/
def resetZoomFactor : ℚ := 1

/-- The zoom-factor invariant of the spec. -/
def zoomWithinBounds (z : ℚ) : Prop := MIN_ZOOM ≤ z ∧ z ≤ MAX_ZOOM

/-- Shallow embedding of `PDFViewer.toggle_two_page_mode` (lines 1424–1437):
the mode becomes the checkbox value; when switching on with an odd, non-zero
current page, the page moves back by one.  Returns (newMode, newCurrentPage). -/
def toggleTwoPageMode (checked : Bool) (currentPage : Nat) : Bool × Nat :=
  if checked = true ∧ 0 < currentPage ∧ currentPage % 2 ≠ 0 then
    (checked, currentPage - 1)
  else
    (checked, currentPage)

/-! ## Theorems -/

/-- Claim C3: for every layout computation, two pages are displayed iff
`twoPageMode` is enabled, `currentPageIndex > 0`, and
`currentPageIndex + 1 < pageCount`; page 0 is never paired; the paired
indices are `(currentPageIndex, currentPageIndex + 1)`. -/
theorem displayIndices_pairing_rule (m : Bool) (cp n : Nat) :
    ((displayIndices m cp n).indicesToLoad.length = 2 ↔
      (m = true ∧ 0 < cp ∧ cp + 1 < n)) ∧
    ((displayIndices m cp n).isTwoPageView = true ↔
      (m = true ∧ 0 < cp ∧ cp + 1 < n)) ∧
    ((displayIndices m cp n).isTwoPageView = true →
      (displayIndices m cp n).indicesToLoad = [cp, cp + 1]) ∧
    (displayIndices m 0 n).indicesToLoad = [0] := by
  unfold displayIndices
  by_cases h : m = true ∧ 0 < cp ∧ cp + 1 < n
  · simp [h]
  · refine ⟨?_, ?_, ?_, ?_⟩
    · simp [h]
    · simp [h]
    · simp [h]
    · have h0 : ¬(m = true ∧ 0 < (0 : Nat) ∧ 0 + 1 < n) := by simp
      simp [h0]

/-- Witness for C3 at a concrete paired and unpaired input. -/
theorem displayIndices_pairing_rule_witness :
    (displayIndices true 1 5).indicesToLoad = [1, 2] ∧
    (displayIndices true 0 5).indicesToLoad = [0] :=
  ⟨(displayIndices_pairing_rule true 1 5).2.2.1 (by decide),
   (displayIndices_pairing_rule true 0 5).2.2.2⟩

/-- Claim C7: in a 5-page document with two-page mode on, index 0 is shown
alone, index 1 pairs (1,2), next-page from 1 lands on 3 pairing (3,4), and
next-page from 3 lands on 4, shown alone. -/
theorem five_page_scenario :
    displayIndices true 0 5 = ⟨[0], false⟩ ∧
    displayIndices true 1 5 = ⟨[1, 2], true⟩ ∧
    nextPage true 5 1 = 3 ∧
    displayIndices true 3 5 = ⟨[3, 4], true⟩ ∧
    nextPage true 5 3 = 4 ∧
    displayIndices true 4 5 = ⟨[4], false⟩ := by
  decide

/-- Claim C10: toggling two-page mode on at an odd index decrements the
current page by exactly one; toggling on at index 0 or an even index, or
toggling off anywhere, leaves the current page unchanged. -/
theorem toggleTwoPageMode_alignment (cp : Nat) :
    (cp % 2 = 1 → toggleTwoPageMode true cp = (true, cp - 1)) ∧
    (cp % 2 = 0 → toggleTwoPageMode true cp = (true, cp)) ∧
    toggleTwoPageMode false cp = (false, cp) := by
  refine ⟨?_, ?_, ?_⟩
  · intro hodd
    have hpos : 0 < cp := by
      rcases Nat.eq_zero_or_pos cp with h0 | h
      · simp [h0] at hodd
      · exact h
    simp [toggleTwoPageMode, hpos, hodd]
  · intro heven
    simp [toggleTwoPageMode, heven]
  · simp [toggleTwoPageMode]

/-- Witness for C10 at odd index 3, even index 2, and toggling off at 7. -/
theorem toggleTwoPageMode_alignment_witness :
    toggleTwoPageMode true 3 = (true, 2) ∧
    toggleTwoPageMode true 2 = (true, 2) ∧
    toggleTwoPageMode false 7 = (false, 7) :=
  ⟨(toggleTwoPageMode_alignment 3).1 (by decide),
   (toggleTwoPageMode_alignment 2).2.1 (by decide),
   (toggleTwoPageMode_alignment 7).2.2⟩

/-- Claim C8: the manual zoom factor starts at 1.0 and every mutation
(zoom-in, zoom-out, document open / reset) keeps it within
[MIN_ZOOM, MAX_ZOOM]. -/
theorem zoom_factor_always_within_bounds (z : ℚ) (h : zoomWithinBounds z) :
    resetZoomFactor = 1 ∧
    zoomWithinBounds resetZoomFactor ∧
    zoomWithinBounds (zoomIn z) ∧
    zoomWithinBounds (zoomOut z) := by
  obtain ⟨hlo, hhi⟩ := h
  refine ⟨rfl,
    ⟨by norm_num [MIN_ZOOM, resetZoomFactor], by norm_num [MAX_ZOOM, resetZoomFactor]⟩,
    ⟨?_, ?_⟩, ⟨?_, ?_⟩⟩
  · refine le_min ?_ ?_
    · norm_num [MIN_ZOOM, MAX_ZOOM]
    · rw [MIN_ZOOM] at hlo ⊢
      rw [ZOOM_INCREMENT]
      nlinarith
  · exact min_le_left _ _
  · exact le_max_left _ _
  · refine max_le ?_ ?_
    · norm_num [MIN_ZOOM, MAX_ZOOM]
    · rw [MAX_ZOOM] at hhi ⊢
      rw [ZOOM_INCREMENT, div_le_iff₀ (by norm_num)]
      nlinarith

/-- Witness for C8 at z = 1. -/
theorem zoom_factor_always_within_bounds_witness :
    zoomWithinBounds (1 : ℚ) ∧
    (resetZoomFactor = 1 ∧ zoomWithinBounds resetZoomFactor ∧
      zoomWithinBounds (zoomIn 1) ∧ zoomWithinBounds (zoomOut 1)) :=
  ⟨⟨by norm_num [MIN_ZOOM, zoomWithinBounds], by norm_num [MAX_ZOOM, zoomWithinBounds]⟩,
   zoom_factor_always_within_bounds 1
     ⟨by norm_num [MIN_ZOOM, zoomWithinBounds], by norm_num [MAX_ZOOM, zoomWithinBounds]⟩⟩

/-- Claim C9: when `z * ZOOM_INCREMENT` does not exceed MAX_ZOOM and the
subsequent division does not fall below MIN_ZOOM, zoom-in followed by
zoom-out returns the zoom factor to z (exactly, in the rational model). -/
theorem zoomIn_zoomOut_roundtrip (z : ℚ)
    (hup : z * ZOOM_INCREMENT ≤ MAX_ZOOM)
    (hdown : MIN_ZOOM ≤ z) :
    zoomOut (zoomIn z) = z := by
  have h1 : zoomIn z = z * ZOOM_INCREMENT := min_eq_right hup
  have h2 : z * ZOOM_INCREMENT / ZOOM_INCREMENT = z := by
    rw [mul_div_assoc, div_self (by norm_num [ZOOM_INCREMENT]), mul_one]
  rw [zoomOut, h1, h2]
  exact max_eq_right hdown

/-- Witness for C9 at z = 1. -/
theorem zoomIn_zoomOut_roundtrip_witness :
    (1 : ℚ) * ZOOM_INCREMENT ≤ MAX_ZOOM ∧ MIN_ZOOM ≤ (1 : ℚ) ∧
    zoomOut (zoomIn 1) = 1 :=
  ⟨by norm_num [ZOOM_INCREMENT, MAX_ZOOM],
   by norm_num [MIN_ZOOM],
   zoomIn_zoomOut_roundtrip 1 (by norm_num [ZOOM_INCREMENT, MAX_ZOOM])
     (by norm_num [MIN_ZOOM])⟩

/-- Claim C1 (code bug): on the path where cancellation is requested while
the remote call is in flight (pre-call checkpoint sees the flag unset, the
post-call observations see it set) and `generate_content` raises, the worker
emits no terminal signal at all — the `except` handler suppresses the generic
error because the flag is set, yet no cancellation error was ever emitted.
The claim's "exactly one terminal callback on every path" therefore fails. -/
theorem run_zero_terminal_on_cancelled_raise :
    terminalCount (GeminiWorker.run true false true (.exn "network failure")) = 0 ∧
    (GeminiWorker.run true false true (.exn "network failure")).signals =
      [.progress 50] :=
  ⟨rfl, rfl⟩

/-- Claim C2: the interruption flag is honoured at the two checkpoints.  If
set before the call, the worker emits the pre-call cancellation error and the
remote call is never issued.  If observed set after a call that returned, the
worker emits the post-call cancellation error instead of a success, even for
a valid reply, so the invalid-reply error from the same attempt is also
suppressed.  If observed set after a call that raised, the generic API error
is suppressed (no non-cancellation error is emitted). -/
theorem run_cancellation_checkpoints (ib ia : Bool) (resp : GeminiResponse)
    (e : String) (c : ApiCall) :
    (ib = true → GeminiWorker.run true ib ia c =
      ⟨[.error "APIコール開始前にキャンセルされました。"], false⟩) ∧
    (ib = false → ia = true → GeminiWorker.run true ib ia (.ret resp) =
      ⟨[.progress 50, .error "APIコールがキャンセルされました。"], true⟩) ∧
    (ib = false → ia = true →
      (GeminiWorker.run true ib ia (.exn e)).signals = [.progress 50]) := by
  refine ⟨?_, ?_, ?_⟩
  · intro hib
    simp [GeminiWorker.run, hib]
  · intro hib hia
    simp [GeminiWorker.run, hib, hia]
  · intro hib hia
    simp [GeminiWorker.run, hib, hia]

/-- Witness for C2: a pre-call cancellation, a post-return cancellation of a
valid reply, and a post-raise suppression, each at concrete inputs. -/
theorem run_cancellation_checkpoints_witness :
    (GeminiWorker.run true true true (.ret ⟨some "ok", none, none⟩) =
      ⟨[.error "APIコール開始前にキャンセルされました。"], false⟩) ∧
    (GeminiWorker.run true false true (.ret ⟨some "ok", none, none⟩) =
      ⟨[.progress 50, .error "APIコールがキャンセルされました。"], true⟩) ∧
    (GeminiWorker.run true false true (.exn "boom")).signals = [.progress 50] :=
  ⟨(run_cancellation_checkpoints true true ⟨some "ok", none, none⟩ "boom"
      (.ret ⟨some "ok", none, none⟩)).1 rfl,
   (run_cancellation_checkpoints false true ⟨some "ok", none, none⟩ "boom"
      (.ret ⟨some "ok", none, none⟩)).2.1 rfl rfl,
   (run_cancellation_checkpoints false true ⟨some "ok", none, none⟩ "boom"
      (.exn "boom")).2.2 rfl rfl⟩

/-- Claim C6: with no cancellation requested, a reply whose text is absent or
empty makes the worker emit exactly one terminal signal, an error whose
message mentions the invalid response and carries the computed detail (the
prompt feedback when it is available), and no success is emitted. -/
theorem run_invalid_response_error (resp : GeminiResponse)
    (hinv : invalidText resp = true) :
    (GeminiWorker.run true false false (.ret resp)).signals =
      [.progress 50,
       .error ("Gemini APIから無効な応答を受け取りました: " ++ errorDetail resp)] ∧
    (∀ t, Signal.finished t ∉ (GeminiWorker.run true false false (.ret resp)).signals) ∧
    (pfTruthy resp = true →
      errorDetail resp = "プロンプトフィードバック: " ++ resp.prompt_feedback.getD "") := by
  refine ⟨?_, ?_, ?_⟩
  · simp [GeminiWorker.run, hinv]
  · intro t
    simp [GeminiWorker.run, hinv]
  · intro hpf
    simp [errorDetail, hpf]

/-- Witness for C6: a reply with absent text and available prompt feedback. -/
theorem run_invalid_response_error_witness :
    (GeminiWorker.run true false false (.ret ⟨none, some "safety block", none⟩)).signals =
      [.progress 50,
       .error ("Gemini APIから無効な応答を受け取りました: " ++
         errorDetail ⟨none, some "safety block", none⟩)] ∧
    errorDetail ⟨none, some "safety block", none⟩ =
      "プロンプトフィードバック: " ++ "safety block" :=
  ⟨(run_invalid_response_error ⟨none, some "safety block", none⟩ rfl).1,
   (run_invalid_response_error ⟨none, some "safety block", none⟩ rfl).2.2 rfl⟩

/-- Claim C5: a submit call made while the API thread is running is rejected
— when the document is open and the model configured, the rejection is the
busy notice naming the in-progress action — the state is unchanged on every
such path, and no worker is started. -/
theorem callGeminiApi_single_flight (st : DispatcherState) (doc conf : Bool)
    (txt act : String) (hrun : st.apiThreadRunning = true) :
    (doc = true → conf = true →
      callGeminiApi st doc conf txt act =
        (st, .busy (pyOrStr st.currentActionName "別の操作"))) ∧
    (callGeminiApi st doc conf txt act).1 = st ∧
    (∀ a, (callGeminiApi st doc conf txt act).2 ≠ .started a) := by
  refine ⟨?_, ?_, ?_⟩
  · intro hdoc hconf
    simp [callGeminiApi, hdoc, hconf, hrun]
  · unfold callGeminiApi
    rcases doc with _ | _ <;> rcases conf with _ | _ <;> simp [hrun]
  · intro a
    unfold callGeminiApi
    rcases doc with _ | _ <;> rcases conf with _ | _ <;> simp [hrun]

/-- Witness for C5: a busy worker named "翻訳", a second submit with the
document open and the model configured. -/
theorem callGeminiApi_single_flight_witness :
    callGeminiApi ⟨true, some "翻訳"⟩ true true "some text" "要約" =
      (⟨true, some "翻訳"⟩, .busy "翻訳") ∧
    (callGeminiApi ⟨true, some "翻訳"⟩ true true "some text" "要約").1 =
      (⟨true, some "翻訳"⟩ : DispatcherState) :=
  ⟨by
    have h := (callGeminiApi_single_flight ⟨true, some "翻訳"⟩ true true
      "some text" "要約" rfl).1 rfl rfl
    simpa [pyOrStr] using h,
   (callGeminiApi_single_flight ⟨true, some "翻訳"⟩ true true
      "some text" "要約" rfl).2.1⟩

/-- Counterexample to claim C4 as stated: viewport width 5 (> 0), a single
page of width 2.  The computed zoom is `max(1, 5 − 15)/2 = 1/2`, which the
clamp leaves untouched (it lies within [MIN_ZOOM, MAX_ZOOM]), yet
`zoom * totalUnzoomedWidth = 1 > 5 − FIT_PADDING = −10`: the advertised
bound fails even though no clamping applied. -/
theorem fitWidth_bound_fails_on_narrow_viewport :
    fitWidthZoom 5 (totalUnzoomedWidthWithSpacing [2] false) = 1/2 ∧
    MIN_ZOOM ≤ (1 : ℚ)/2 ∧ (1 : ℚ)/2 ≤ MAX_ZOOM ∧
    ¬ fitWidthZoom 5 (totalUnzoomedWidthWithSpacing [2] false) *
        totalUnzoomedWidthWithSpacing [2] false ≤ ((5 - FIT_PADDING : ℤ) : ℚ) := by
  norm_num [fitWidthZoom, clampZoom, totalUnzoomedWidthWithSpacing,
    MIN_ZOOM, MAX_ZOOM, FIT_PADDING, TWO_PAGE_SPACING_BASE]

/-- Claim C4 as amended: in FitWidth mode the zoom is
`max(1, viewportWidth − FIT_PADDING) / totalUnzoomedWidth` (1.0 when that
width is zero) clamped to [MIN_ZOOM, MAX_ZOOM]; and whenever
`viewportWidth ≥ FIT_PADDING + 1` and the unclamped ratio already lies within
[MIN_ZOOM, MAX_ZOOM], the zoom times the total unzoomed width equals — in
particular does not exceed — `viewportWidth − FIT_PADDING`. -/
theorem fitWidthZoom_bound (vw : ℤ) (totalW : ℚ)
    (htot : 0 < totalW)
    (hvw : FIT_PADDING + 1 ≤ vw)
    (hlo : MIN_ZOOM ≤ ((vw - FIT_PADDING : ℤ) : ℚ) / totalW)
    (hhi : ((vw - FIT_PADDING : ℤ) : ℚ) / totalW ≤ MAX_ZOOM) :
    fitWidthZoom vw totalW = ((vw - FIT_PADDING : ℤ) : ℚ) / totalW ∧
    fitWidthZoom vw totalW * totalW ≤ ((vw - FIT_PADDING : ℤ) : ℚ) := by
  have hmax : max 1 (vw - FIT_PADDING) = vw - FIT_PADDING :=
    max_eq_right (by omega)
  have hzoom : fitWidthZoom vw totalW = ((vw - FIT_PADDING : ℤ) : ℚ) / totalW := by
    rw [fitWidthZoom]
    simp only [hmax, if_pos htot]
    rw [clampZoom, min_eq_right hhi, max_eq_right hlo]
  refine ⟨hzoom, ?_⟩
  rw [hzoom, div_mul_cancel₀ _ (ne_of_gt htot)]

/-- Witness for the amended C4 at viewport width 100 and total width 50. -/
theorem fitWidthZoom_bound_witness :
    fitWidthZoom 100 50 = 17/10 ∧
    fitWidthZoom 100 50 * 50 ≤ ((100 - FIT_PADDING : ℤ) : ℚ) := by
  have h := fitWidthZoom_bound 100 50 (by norm_num)
    (by norm_num [FIT_PADDING])
    (by norm_num [MIN_ZOOM, FIT_PADDING])
    (by norm_num [MAX_ZOOM, FIT_PADDING])
  refine ⟨?_, h.2⟩
  rw [h.1]
  norm_num [FIT_PADDING]

end PdfViewerGemini
